import Mathlib

/-!
Verification of the cost-forecasting engine of azure-cost-optimizer
(src/optimizers/forecasting/forecaster.py and
src/optimizers/forecasting/analyzer.py).

Numeric values are modelled as exact rationals.  A numpy float division
with zero denominator does not raise in the source; it produces a
non-finite value (inf or NaN).  Such results are modelled as
Option-valued: none stands for any non-finite float.  The sklearn
estimator (StandardScaler, train_test_split + RandomForestRegressor with
random_state equal to 42) is external to the repository; it is modelled
as an abstract deterministic pair of functions (an MLStack below), since
its only properties used by the claims are determinism and the seeding
discipline of the source.  Calendar periods are modelled as absolute
month indices: index 0 is a January, so the calendar month of index m is
m % 12 + 1 and its quarter is m % 12 / 3 + 1.
-/

/-- Mean of a list of values, as numpy mean on a nonempty list
(the source only applies it to nonempty lists). -/
def npMean (xs : List ℚ) : ℚ := xs.sum / xs.length

/-- Division as performed on numpy floats: a zero denominator yields a
non-finite value (inf or NaN), modelled as none; no exception is raised. -/
def npDivQ (a b : ℚ) : Option ℚ := if b = 0 then none else some (a / b)

/-- Linear-interpolation percentile, as numpy percentile: sort ascending,
take h = (n-1)q/100, and interpolate between the floor and the following
index (clipped to the last index). -/
def npPercentile (xs : List ℚ) (q : ℚ) : ℚ :=
  let s := List.insertionSort (· ≤ ·) xs
  let n := s.length
  let h : ℚ := (n - 1 : ℚ) * q / 100
  let lo := s.getD (⌊h⌋).toNat 0
  let hi := s.getD (min ((⌊h⌋).toNat + 1) (n - 1)) 0
  lo + (h - (⌊h⌋ : ℚ)) * (hi - lo)

/-- Round-half-to-even of a rational to an integer, the rounding used by
numpy and pandas round. -/
def rhe (q : ℚ) : ℤ :=
  let f := ⌊q⌋
  let r := q - f
  if r < 1/2 then f
  else if 1/2 < r then f + 1
  else if f % 2 = 0 then f else f + 1

/-- Rounding to two decimal places with round-half-to-even, as the
source uses in round(x, 2) and Series.round(2). -/
def round2 (q : ℚ) : ℚ := ((rhe (100 * q) : ℤ) : ℚ) / 100

/-- Calendar month (1..12) of an absolute month index. -/
def calMonth (m : ℕ) : ℕ := m % 12 + 1

/-- Calendar quarter (1..4) of an absolute month index. -/
def calQuarter (m : ℕ) : ℕ := m % 12 / 3 + 1

/-- One raw cost observation, as produced by the data-collection layer
and consumed by the forecasting engine: the absolute month of its date,
its cost, and its resource type. -/
structure Obs where
  month : ℕ
  cost : ℚ
  rtype : String
  deriving DecidableEq, Repr

/-- Smallest observation month, 0 for an empty list. -/
def minMonth (data : List Obs) : ℕ :=
  match data.map Obs.month with
  | [] => 0
  | x :: xs => xs.foldl min x

/-- Largest observation month, 0 for an empty list. -/
def maxMonth (data : List Obs) : ℕ :=
  match data.map Obs.month with
  | [] => 0
  | x :: xs => xs.foldl max x

/-- Number of calendar months spanned by the observations (0 when there
are none): the length of the monthly series built by resampling. -/
def monthSpan (data : List Obs) : ℕ :=
  match data with
  | [] => 0
  | _ => maxMonth data - minMonth data + 1

/-- CostForecaster prepare data: resample the observations to a monthly
series.  Pandas resample to month frequency produces one row per
calendar month from the first observed month through the last one, the
cost of a month being the sum of the costs of its observations (0 for a
month with no observation).  An empty input produces an empty frame
(the source catches the resulting KeyError and returns an empty frame). -/
def prepareData (data : List Obs) : List (ℕ × ℚ) :=
  match data with
  | [] => []
  | _ =>
    (List.range (maxMonth data - minMonth data + 1)).map (fun k =>
      (minMonth data + k,
       ((data.filter (fun o => o.month = minMonth data + k)).map Obs.cost).sum))

/-- CostForecaster create features, feature rows: for i in
range(len(df) - 3), the vector [cost i, cost (i+1), cost (i+2),
month of period i, quarter of period i]. -/
def createFeaturesX (df : List (ℕ × ℚ)) : List (List ℚ) :=
  (List.range (df.length - 3)).map (fun i =>
    [(df.getD i (0, 0)).2, (df.getD (i+1) (0, 0)).2, (df.getD (i+2) (0, 0)).2,
     ((calMonth (df.getD i (0, 0)).1 : ℕ) : ℚ), ((calQuarter (df.getD i (0, 0)).1 : ℕ) : ℚ)])

/-- CostForecaster create features, targets: for i in
range(len(df) - 3), the cost of period i+3. -/
def createFeaturesY (df : List (ℕ × ℚ)) : List ℚ :=
  (List.range (df.length - 3)).map (fun i => (df.getD (i+3) (0, 0)).2)

/-- Abstract model of the sklearn components used by CostForecaster.
sfit models StandardScaler fit and transform: fitting on the full
training feature matrix returns the transform applied to any later
feature vector.  fitP models train test split with random_state 42
followed by RandomForestRegressor fit (n_estimators 100, max_depth 10,
random_state given by the first argument) and predict: given the seed,
the scaled training matrix and the targets, it returns the trained
deterministic prediction function.  Determinism of sklearn predict on a
fitted estimator, and the fact that an integer random_state re-seeds
every fit identically, are what this modelling encodes. -/
structure MLStack where
  sfit : List (List ℚ) → (List ℚ → List ℚ)
  fitP : ℕ → List (List ℚ) → List ℚ → (List ℚ → ℚ)

/-- Feature vector built inside the prediction loop from the rolling
window and the absolute month of the predicted period. -/
def featAt (w : List ℚ) (absM : ℕ) : List ℚ :=
  [w.getD 0 0, w.getD 1 0, w.getD 2 0,
   ((calMonth absM : ℕ) : ℚ), ((calQuarter absM : ℕ) : ℚ)]

/-- Rolling window of the autoregressive loop: seeded with w0 (the last
three monthly costs) and, after each period, shifted left with the
period's mean prediction appended (numpy roll by -1 followed by writing
the last slot). -/
def windowAt (mo : List ℚ → ℚ) (scale : List ℚ → List ℚ) (lastM : ℕ)
    (w0 : List ℚ) : ℕ → List ℚ
  | 0 => w0
  | i + 1 =>
    let w := windowAt mo scale lastM w0 i
    let p := npMean (List.replicate 100 (mo (scale (featAt w (lastM + i + 1)))))
    w.drop 1 ++ [p]

/-- The 100 bootstrap predictions collected for period i: the source
calls model.predict on the same scaled feature vector 100 times, so the
list is 100 copies of the same deterministic prediction. -/
def predsAt (mo : List ℚ → ℚ) (scale : List ℚ → List ℚ) (lastM : ℕ)
    (w0 : List ℚ) (i : ℕ) : List ℚ :=
  List.replicate 100 (mo (scale (featAt (windowAt mo scale lastM w0 i) (lastM + i + 1))))

/-- Point estimate for period i: the mean of the 100 predictions. -/
def predAt (mo : List ℚ → ℚ) (scale : List ℚ → List ℚ) (lastM : ℕ)
    (w0 : List ℚ) (i : ℕ) : ℚ :=
  npMean (predsAt mo scale lastM w0 i)

/-- Configured confidence levels of the forecaster. -/
def confidenceLevels : List ℚ := [19/20, 4/5, 1/2]

/-- Number of forecast periods (months) of the forecaster. -/
def forecastPeriods : ℕ := 12

/-- One confidence-interval entry: period and the two percentile bounds. -/
structure IntervalEntry where
  period : ℕ
  lower : ℚ
  upper : ℚ
  deriving DecidableEq, Repr

/-- Last period of the monthly series, as iloc[-1] on the date column. -/
def lastMonthOf (monthly : List (ℕ × ℚ)) : ℕ :=
  (monthly.map Prod.fst).getD (monthly.length - 1) 0

/-- Seed of the rolling window: the last three costs of the monthly
series (iloc[-3:]). -/
def initWindow (monthly : List (ℕ × ℚ)) : List ℚ :=
  (monthly.map Prod.snd).drop (monthly.length - 3)

/-- Confidence intervals per level: for each configured level l and each
of the 12 future periods, the percentile interval of the 100 predictions
at (100 - l*100)/2 and 50 + l*100/2. -/
def intervalsAt (mo : List ℚ → ℚ) (scale : List ℚ → List ℚ) (lastM : ℕ)
    (w0 : List ℚ) : List (ℚ × List IntervalEntry) :=
  confidenceLevels.map (fun l =>
    (l, (List.range forecastPeriods).map (fun i =>
      { period := lastM + i + 1
        lower := npPercentile (predsAt mo scale lastM w0 i) ((100 - l * 100) / 2)
        upper := npPercentile (predsAt mo scale lastM w0 i) (50 + l * 100 / 2) })))

/-- Unadjusted forecasts: period and mean prediction for each of the 12
future months, the month after the last historical period coming first. -/
def forecastsU (mo : List ℚ → ℚ) (scale : List ℚ → List ℚ) (lastM : ℕ)
    (w0 : List ℚ) : List (ℕ × ℚ) :=
  (List.range forecastPeriods).map (fun i => (lastM + i + 1, predAt mo scale lastM w0 i))

/-- Key of a Python dict entry: the analysis dictionaries mix string
keys (the statistics produced by the analyzer) and integer keys (the
per-month indices the forecaster looks up). -/
inductive PKey where
  | s (v : String)
  | i (v : ℕ)
  deriving DecidableEq, Repr

/-- Python dict lookup on an association list. -/
def lookupP (d : List (PKey × ℚ)) (k : PKey) : Option ℚ :=
  match d with
  | [] => none
  | (k2, v) :: rest => if k2 = k then some v else lookupP rest k

/-- The seasonality dictionaries of the analysis argument as read by
applySeasonalAdjustments: whether the analysis has a seasonality entry,
and its monthly and quarterly pattern dicts when present. -/
structure AnalysisDicts where
  hasSeasonality : Bool
  monthly : Option (List (PKey × ℚ))
  quarterly : Option (List (PKey × ℚ))

/-- One adjustment step: if the pattern dict is present and contains the
key, multiply the forecast by (1 + value), else leave it unchanged. -/
def stepAdj (pat : Option (List (PKey × ℚ))) (k : PKey) (f : ℚ) : ℚ :=
  match pat with
  | none => f
  | some d =>
    match lookupP d k with
    | some v => f * (1 + v)
    | none => f

/-- CostForecaster apply seasonal adjustments to one forecast value:
monthly step first, quarterly step second, both keyed by the integer
calendar month and quarter of the forecast's period; only the forecast
value is touched, never the confidence intervals. -/
def applyAdjust (an : AnalysisDicts) (absM : ℕ) (f : ℚ) : ℚ :=
  if an.hasSeasonality then
    stepAdj an.quarterly (PKey.i (calQuarter absM))
      (stepAdj an.monthly (PKey.i (calMonth absM)) f)
  else f

/-- Uncertainty metrics per confidence level. -/
structure UncertaintyMetrics where
  averageRange : ℚ
  rangeIncreasing : Bool
  relativeUncertainty : Option ℚ
  deriving Repr

/-- ForecastResult: adjusted forecasts, per-level confidence intervals,
and the forecast metrics. -/
structure ForecastResultQ where
  forecasts : List (ℕ × ℚ)
  intervals : List (ℚ × List IntervalEntry)
  totalForecast : ℚ
  averageMonthly : ℚ
  trendIncreasing : Bool
  forecastGrowth : Option ℚ
  uncertainty : List (ℚ × UncertaintyMetrics)

/-- Level lookup in the confidence-interval dict. -/
def lookupLv (ivs : List (ℚ × List IntervalEntry)) (l : ℚ) : List IntervalEntry :=
  match ivs with
  | [] => []
  | (k, es) :: rest => if k = l then es else lookupLv rest l

/-- Level lookup in the uncertainty-metrics dict. -/
def lookupUncLv (um : List (ℚ × UncertaintyMetrics)) (l : ℚ) : UncertaintyMetrics :=
  match um with
  | [] => { averageRange := 0, rangeIncreasing := false, relativeUncertainty := none }
  | (k, m) :: rest => if k = l then m else lookupUncLv rest l

/-- CostForecaster generate predictions: run the autoregressive loop,
collect forecasts and per-level percentile intervals, apply the seasonal
adjustments to the forecast values only, then compute the metrics from
the adjusted values and the untouched intervals. -/
def generatePredictions (mo : List ℚ → ℚ) (scale : List ℚ → List ℚ)
    (monthly : List (ℕ × ℚ)) (an : AnalysisDicts) : ForecastResultQ :=
  let lastM := lastMonthOf monthly
  let w0 := initWindow monthly
  let fu := forecastsU mo scale lastM w0
  let fa := fu.map (fun pf => (pf.1, applyAdjust an pf.1 pf.2))
  let vals := fa.map Prod.snd
  let ivs := intervalsAt mo scale lastM w0
  { forecasts := fa
    intervals := ivs
    totalForecast := vals.sum
    averageMonthly := npMean vals
    trendIncreasing := decide (vals.getD 0 0 < vals.getD (forecastPeriods - 1) 0)
    forecastGrowth := npDivQ (vals.getD (forecastPeriods - 1) 0 - vals.getD 0 0) (vals.getD 0 0)
    uncertainty := confidenceLevels.map (fun l =>
      let entries := lookupLv ivs l
      let ranges := entries.map (fun e => e.upper - e.lower)
      (l, { averageRange := npMean ranges
            rangeIncreasing := decide (ranges.getD 0 0 < ranges.getD (entries.length - 1) 0)
            relativeUncertainty := npDivQ (npMean ranges) (npMean vals) })) }

/-- CostForecaster generate forecast for a fixed seed: prepare the
monthly series (None if empty), build features (None if no example can
be formed), scale on the full feature matrix, train with a 0.2 test
split (when the train part of the split is empty, sklearn raises, the
error is swallowed, the model stays unfitted and the later predict
raises, which the prediction wrapper turns into None), then generate
the predictions. -/
def generateForecastCore (F : MLStack) (seed : ℕ) (data : List Obs)
    (an : AnalysisDicts) : Option ForecastResultQ :=
  let monthly := prepareData data
  if monthly.isEmpty then none
  else
    let X := createFeaturesX monthly
    if X.isEmpty then none
    else
      let scale := F.sfit X
      let Xs := X.map scale
      let n := Xs.length
      let nTest := (n + 4) / 5
      if n - nTest = 0 then none
      else some (generatePredictions (F.fitP seed Xs (createFeaturesY monthly)) scale monthly an)

/-- State of a CostForecaster instance: the integer random_state fixed
to 42 at construction, and the scaler and model attributes.  Each call
of generate_forecast refits both attributes from its own input before
predicting, so the attributes carried over from an earlier call are
never read, and the integer seed re-seeds every fit identically. -/
structure FState where
  seed : ℕ
  scalerF : List ℚ → List ℚ
  modelF : Option (List ℚ → ℚ)

/-- A freshly constructed CostForecaster: random_state 42, unfitted
scaler and model. -/
def mkCostForecaster : FState := { seed := 42, scalerF := id, modelF := none }

/-- The model attribute after a call: fitted when the training split is
nonempty, otherwise left unfitted. -/
def trainedModel (F : MLStack) (seed : ℕ) (data : List Obs) : Option (List ℚ → ℚ) :=
  let X := createFeaturesX (prepareData data)
  let Xs := X.map (F.sfit X)
  let n := Xs.length
  if n - (n + 4) / 5 = 0 then none
  else some (F.fitP seed Xs (createFeaturesY (prepareData data)))

/-- CostForecaster generate_forecast as a state transformer: returns the
updated instance state (refitted scaler and model) and the result. -/
def generateForecast (F : MLStack) (st : FState) (data : List Obs)
    (an : AnalysisDicts) : FState × Option ForecastResultQ :=
  ({ st with
      scalerF := F.sfit (createFeaturesX (prepareData data))
      modelF := trainedModel F st.seed data },
   generateForecastCore F st.seed data an)

/-- Identity feature scaling, one concrete instance of the abstract
scaler used to evaluate the pipeline on witnesses. -/
def idScale : List ℚ → List ℚ := id

/-- Concrete trained model that predicts the constant 100. -/
def mo100 : List ℚ → ℚ := fun _ => 100

/-- Concrete trained model that predicts the constant 0. -/
def mo0 : List ℚ → ℚ := fun _ => 0

/-- Concrete ML stack with identity scaler and constant-100 model. -/
def cxStack : MLStack :=
  { sfit := fun _ => idScale, fitP := fun _ _ _ => mo100 }

/-- Concrete ML stack with identity scaler and constant-0 model. -/
def zeroStack : MLStack :=
  { sfit := fun _ => idScale, fitP := fun _ _ _ => mo0 }

/-- Six observations of cost 100 in six consecutive months. -/
def cxData : List Obs :=
  [{ month := 0, cost := 100, rtype := ("VM") },
   { month := 1, cost := 100, rtype := ("VM") },
   { month := 2, cost := 100, rtype := ("VM") },
   { month := 3, cost := 100, rtype := ("VM") },
   { month := 4, cost := 100, rtype := ("VM") },
   { month := 5, cost := 100, rtype := ("VM") }]

/-- Five observations in five consecutive months. -/
def data5 : List Obs :=
  [{ month := 0, cost := 10, rtype := ("VM") },
   { month := 1, cost := 10, rtype := ("VM") },
   { month := 2, cost := 10, rtype := ("VM") },
   { month := 3, cost := 10, rtype := ("VM") },
   { month := 4, cost := 10, rtype := ("VM") }]

/-- Observations in only two distinct months, eight months apart. -/
def dataSpread : List Obs :=
  [{ month := 0, cost := 10, rtype := ("VM") },
   { month := 7, cost := 10, rtype := ("VM") }]

/-- A six-month monthly series with nonzero costs. -/
def m6 : List (ℕ × ℚ) := [(0, 10), (1, 20), (2, 30), (3, 40), (4, 50), (5, 60)]

/-- A six-month monthly series of all-zero costs. -/
def z6m : List (ℕ × ℚ) := [(0, 0), (1, 0), (2, 0), (3, 0), (4, 0), (5, 0)]

/-- Three unit-cost observations on three distinct resource types. -/
def obs3 : List Obs :=
  [{ month := 0, cost := 1, rtype := ("A") },
   { month := 0, cost := 1, rtype := ("B") },
   { month := 0, cost := 1, rtype := ("C") }]

/-- A single observation with a single resource type. -/
def obsV : List Obs := [{ month := 0, cost := 5, rtype := ("VM") }]

/-- Analysis with no seasonality entry. -/
def anN : AnalysisDicts := { hasSeasonality := false, monthly := none, quarterly := none }

/-- Monthly pattern dict holding every integer calendar month with
seasonal index 1 (factor 2). -/
def allMonths1 : List (PKey × ℚ) :=
  [(PKey.i 1, 1), (PKey.i 2, 1), (PKey.i 3, 1), (PKey.i 4, 1), (PKey.i 5, 1),
   (PKey.i 6, 1), (PKey.i 7, 1), (PKey.i 8, 1), (PKey.i 9, 1), (PKey.i 10, 1),
   (PKey.i 11, 1), (PKey.i 12, 1)]

/-- Analysis whose seasonality has the integer-keyed monthly pattern
allMonths1 and no quarterly pattern. -/
def an1 : AnalysisDicts :=
  { hasSeasonality := true, monthly := some allMonths1, quarterly := none }

/-- Default forecast result used only as a getD fallback. -/
def dfltResult : ForecastResultQ :=
  { forecasts := [], intervals := [], totalForecast := 0, averageMonthly := 0,
    trendIncreasing := false, forecastGrowth := none, uncertainty := [] }

/-- Projection of the point estimate of forecast period i of a result. -/
def forecastVal (r : ForecastResultQ) (i : ℕ) : ℚ := (r.forecasts.getD i (0, 0)).2

/-- Default interval entry used only as a getD fallback. -/
def dfltEntry : IntervalEntry := { period := 0, lower := 0, upper := 0 }

/-- Projection of the interval entry of level l and period index i. -/
def intervalEntry (r : ForecastResultQ) (l : ℚ) (i : ℕ) : IntervalEntry :=
  (lookupLv r.intervals l).getD i dfltEntry

/-- The single deterministic model prediction that all 100 bootstrap
samples of period i are equal to. -/
def sampleVal (mo : List ℚ → ℚ) (scale : List ℚ → List ℚ) (lastM : ℕ)
    (w0 : List ℚ) (i : ℕ) : ℚ :=
  mo (scale (featAt (windowAt mo scale lastM w0 i) (lastM + i + 1)))

/-- Multiplicative factor of one adjustment step: 1 + value when the
pattern dict is present and holds the key, else 1. -/
def facOf (pat : Option (List (PKey × ℚ))) (k : PKey) : ℚ :=
  match pat with
  | none => 1
  | some d =>
    match lookupP d k with
    | some v => 1 + v
    | none => 1

/-- Monthly adjustment factor applied to a forecast of absolute month m. -/
def monthlyFacOf (an : AnalysisDicts) (m : ℕ) : ℚ :=
  if an.hasSeasonality then facOf an.monthly (PKey.i (calMonth m)) else 1

/-- Quarterly adjustment factor applied to a forecast of absolute month m. -/
def quarterlyFacOf (an : AnalysisDicts) (m : ℕ) : ℚ :=
  if an.hasSeasonality then facOf an.quarterly (PKey.i (calQuarter m)) else 1

/-- The keys of the dicts the analyzer stores under seasonality.monthly
and seasonality.quarterly: statistic names, all strings, never an
integer calendar month or quarter. -/
def analyzerSeasonKeys : List PKey :=
  [PKey.s ("highest_cost_month"), PKey.s ("lowest_cost_month"), PKey.s ("seasonal_variation"),
   PKey.s ("highest_cost_quarter"), PKey.s ("lowest_cost_quarter"), PKey.s ("quarter_variation")]

/-- The distinct resource types of the observations, as the groupby
keys of the cost-driver analysis. -/
def resourceTypes (data : List Obs) : List String := (data.map Obs.rtype).dedup

/-- Total cost attributed to one resource type. -/
def typeTotal (data : List Obs) (t : String) : ℚ :=
  ((data.filter (fun o => o.rtype = t)).map Obs.cost).sum

/-- Per-type cost totals of the groupby, one entry per distinct type. -/
def resourceTotals (data : List Obs) : List ℚ :=
  (resourceTypes data).map (typeTotal data)

/-- Percentage share of each resource type, rounded to two decimals, as
the analyzer computes (resource_costs / total * 100).round(2).  With a
zero grand total the float division is non-finite, modelled as none. -/
def resourcePercentages (data : List Obs) : Option (List ℚ) :=
  if (resourceTotals data).sum = 0 then none
  else
    some ((resourceTotals data).map (fun c => round2 (c / (resourceTotals data).sum * 100)))

/-- The cost-concentration index (Herfindahl-Hirschman): the sum over
all resource types of the squared fractional shares of the stored
percentages, rounded to two decimals. -/
def costConcentration (data : List Obs) : Option ℚ :=
  match resourcePercentages data with
  | none => none
  | some ps => some (round2 ((ps.map (fun p => (p / 100) ^ 2)).sum))

/-- Per-calendar-month means of the monthly series, as the analyzer's
groupby(index.month).mean() with keys sorted 1..12 and absent months
omitted. -/
def monthGroupMeans (monthly : List (ℕ × ℚ)) : List ℚ :=
  (List.range 12).filterMap (fun k =>
    let g := (monthly.filter (fun p => calMonth p.1 = k + 1)).map Prod.snd
    if g.isEmpty then none else some (g.sum / g.length))

/-- Sample standard deviation as pandas Series.std (ddof 1): NaN
(modelled none) for fewer than two values, else the square root of the
unbiased variance. -/
noncomputable def sampleStdR (xs : List ℚ) : Option ℝ :=
  if xs.length ≤ 1 then none
  else
    some (Real.sqrt (((xs.map (fun x => ((x : ℝ) - ((npMean xs : ℚ) : ℝ)) ^ 2)).sum)
      / ((xs.length : ℝ) - 1)))

/-- Real-valued numpy division with a rational denominator: a zero
denominator makes the float result non-finite, modelled none. -/
noncomputable def npDivR (a : ℝ) (b : ℚ) : Option ℝ :=
  if b = 0 then none else some (a / (b : ℝ))

/-- The seasonal_variation statistic of the analyzer's monthly
seasonality: std of the per-month means divided by their mean;
non-finite (none) when the std is NaN or the mean is zero. -/
noncomputable def seasonalVariation (monthly : List (ℕ × ℚ)) : Option ℝ :=
  match sampleStdR (monthGroupMeans monthly) with
  | none => none
  | some s => npDivR s (npMean (monthGroupMeans monthly))

theorem npMean_replicate (n : ℕ) (v : ℚ) (hn : n ≠ 0) :
    npMean (List.replicate n v) = v := by
  have hn2 : ((n : ℚ)) ≠ 0 := by exact_mod_cast hn
  simp [npMean, List.sum_replicate, nsmul_eq_mul]
  field_simp

theorem getD_of_all_eq {xs : List ℚ} {v : ℚ} (hall : ∀ x ∈ xs, x = v)
    {j : ℕ} (hj : j < xs.length) : xs.getD j 0 = v := by
  rw [List.getD_eq_getElem xs 0 hj]
  exact hall _ (xs.getElem_mem hj)

theorem npPercentile_const (xs : List ℚ) (q v : ℚ) (hne : xs ≠ [])
    (hall : ∀ x ∈ xs, x = v) (hq0 : 0 ≤ q) (hq1 : q ≤ 100) :
    npPercentile xs q = v := by
  simp only [npPercentile]
  set s := List.insertionSort (· ≤ ·) xs with hs
  have hperm : s.Perm xs := List.perm_insertionSort (· ≤ ·) xs
  have halls : ∀ x ∈ s, x = v := fun x hx => hall x (hperm.mem_iff.mp hx)
  have hlen : s.length = xs.length := hperm.length_eq
  have hpos : 0 < s.length := by
    rw [hlen]
    exact List.length_pos.mpr hne
  set n := s.length with hn
  set h : ℚ := (n - 1 : ℚ) * q / 100 with hh
  have hh0 : 0 ≤ h := by
    apply div_nonneg _ (by norm_num)
    apply mul_nonneg _ hq0
    have : (1 : ℚ) ≤ (n : ℚ) := by exact_mod_cast hpos
    linarith
  have hhn : h ≤ (n : ℚ) - 1 := by
    rw [hh]
    rw [div_le_iff₀ (by norm_num : (0:ℚ) < 100)]
    have : (0 : ℚ) ≤ (n : ℚ) - 1 := by
      have : (1 : ℚ) ≤ (n : ℚ) := by exact_mod_cast hpos
      linarith
    nlinarith
  have hfl0 : 0 ≤ ⌊h⌋ := Int.le_floor.mpr (by exact_mod_cast hh0)
  have hfln : ⌊h⌋ ≤ (n : ℤ) - 1 := by
    have := Int.floor_le_floor hhn
    have hint : ⌊(n : ℚ) - 1⌋ = (n : ℤ) - 1 := by
      rw [show ((n : ℚ) - 1) = ((n - 1 : ℤ) : ℚ) by push_cast; ring]
      exact Int.floor_intCast _
    omega
  have hidx : (⌊h⌋).toNat < n := by omega
  have hidx2 : min ((⌊h⌋).toNat + 1) (n - 1) < n := by omega
  rw [getD_of_all_eq halls hidx, getD_of_all_eq halls hidx2]
  ring

theorem getD_map_range {α : Type} (f : ℕ → α) (d : α) (n i : ℕ) (h : i < n) :
    ((List.range n).map f).getD i d = f i := by
  rw [List.getD_eq_getElem ((List.range n).map f) d (by simpa using h)]
  simp

theorem windowAt_succ (mo : List ℚ → ℚ) (scale : List ℚ → List ℚ) (lastM : ℕ)
    (w0 : List ℚ) (i : ℕ) :
    windowAt mo scale lastM w0 (i + 1)
      = (windowAt mo scale lastM w0 i).drop 1 ++ [predAt mo scale lastM w0 i] := rfl

theorem windowAt_length (mo : List ℚ → ℚ) (scale : List ℚ → List ℚ) (lastM : ℕ)
    (w0 : List ℚ) (h0 : w0.length = 3) (i : ℕ) :
    (windowAt mo scale lastM w0 i).length = 3 := by
  induction i with
  | zero => exact h0
  | succ k ih =>
    rw [windowAt_succ]
    simp [List.length_drop, ih]

/-- The claim C7 property: for a monthly series of length L at least 4,
feature construction yields exactly L-3 examples, example i being the
three costs at i, i+1, i+2 together with the calendar month and quarter
of period i, with target the cost at i+3. -/
theorem c7_feature_construction (df : List (ℕ × ℚ)) (_hL : 4 ≤ df.length) :
    (createFeaturesX df).length = df.length - 3
    ∧ (createFeaturesY df).length = df.length - 3
    ∧ ∀ i, i < df.length - 3 →
        (createFeaturesX df).getD i []
          = [(df.getD i (0, 0)).2, (df.getD (i+1) (0, 0)).2, (df.getD (i+2) (0, 0)).2,
             ((calMonth (df.getD i (0, 0)).1 : ℕ) : ℚ), ((calQuarter (df.getD i (0, 0)).1 : ℕ) : ℚ)]
        ∧ (createFeaturesY df).getD i 0 = (df.getD (i+3) (0, 0)).2 := by
  refine ⟨by simp [createFeaturesX], by simp [createFeaturesY], fun i hi => ⟨?_, ?_⟩⟩
  · exact getD_map_range _ _ _ _ hi
  · exact getD_map_range _ _ _ _ hi

theorem c7_witness :
    (createFeaturesX [(0, 1), (1, 2), (2, 3), (3, 4)]).length = 1
    ∧ (createFeaturesY [(0, 1), (1, 2), (2, 3), (3, 4)]).getD 0 0 = 4
    ∧ (createFeaturesX [(0, 1), (1, 2), (2, 3), (3, 4)]).getD 0 []
        = [1, 2, 3, 1, 1] := by
  have h := c7_feature_construction [(0, 1), (1, 2), (2, 3), (3, 4)] (by norm_num)
  refine ⟨by simpa using h.1, by simpa using (h.2.2 0 (by norm_num)).2, ?_⟩
  have h3 := (h.2.2 0 (by norm_num)).1
  simpa [calMonth, calQuarter] using h3

/-- The claim C8 property: the forecasting loop carries a fixed
three-slot rolling window, seeded with the last three actual costs of
the historical series; after each period the oldest entry is dropped
and the period's unadjusted point estimate is appended, so the feature
vector of period i+1 carries the point estimate of period i in its
newest slot. -/
theorem c8_autoregressive_window (mo : List ℚ → ℚ) (scale : List ℚ → List ℚ)
    (lastM : ℕ) (monthly : List (ℕ × ℚ)) (i : ℕ) (h3 : 3 ≤ monthly.length) :
    initWindow monthly = (monthly.map Prod.snd).drop (monthly.length - 3)
    ∧ (initWindow monthly).length = 3
    ∧ windowAt mo scale lastM (initWindow monthly) 0 = initWindow monthly
    ∧ windowAt mo scale lastM (initWindow monthly) (i + 1)
        = (windowAt mo scale lastM (initWindow monthly) i).drop 1
            ++ [predAt mo scale lastM (initWindow monthly) i]
    ∧ ∀ absM, (featAt (windowAt mo scale lastM (initWindow monthly) (i + 1)) absM).getD 2 0
        = predAt mo scale lastM (initWindow monthly) i := by
  have hw0 : (initWindow monthly).length = 3 := by
    simp only [initWindow, List.length_drop, List.length_map]
    omega
  refine ⟨rfl, hw0, rfl, windowAt_succ mo scale lastM _ i, fun absM => ?_⟩
  have hwi : (windowAt mo scale lastM (initWindow monthly) i).length = 3 :=
    windowAt_length mo scale lastM _ hw0 i
  rw [windowAt_succ]
  simp only [featAt, List.getD_cons_succ, List.getD_cons_zero]
  rw [List.getD_append_right _ _ _ _ (by simp [hwi])]
  simp [hwi]

theorem c8_witness :
    windowAt mo100 idScale 5 (initWindow m6) 1
      = (windowAt mo100 idScale 5 (initWindow m6) 0).drop 1
          ++ [predAt mo100 idScale 5 (initWindow m6) 0]
    ∧ (initWindow m6).length = 3 := by
  have h := c8_autoregressive_window mo100 idScale 5 m6 0 (by norm_num [m6])
  exact ⟨h.2.2.2.1, h.2.1⟩

/-- The claim C9 property: calling generate_forecast twice on the same
CostForecaster instance with identical observations and analysis yields
identical results, because the integer random_state 42 fixed at
construction re-seeds each fit identically and the result is a function
of the seed and the inputs only. -/
theorem c9_deterministic_rerun (F : MLStack) (data : List Obs) (an : AnalysisDicts) :
    (generateForecast F (generateForecast F mkCostForecaster data an).1 data an).2
      = (generateForecast F mkCostForecaster data an).2
    ∧ (generateForecast F mkCostForecaster data an).1.seed = mkCostForecaster.seed :=
  ⟨rfl, rfl⟩

theorem predsAt_eq_replicate (mo : List ℚ → ℚ) (scale : List ℚ → List ℚ)
    (lastM : ℕ) (w0 : List ℚ) (i : ℕ) :
    predsAt mo scale lastM w0 i = List.replicate 100 (sampleVal mo scale lastM w0 i) := rfl

theorem predAt_eq_sampleVal (mo : List ℚ → ℚ) (scale : List ℚ → List ℚ)
    (lastM : ℕ) (w0 : List ℚ) (i : ℕ) :
    predAt mo scale lastM w0 i = sampleVal mo scale lastM w0 i := by
  rw [predAt, predsAt_eq_replicate]
  exact npMean_replicate 100 _ (by norm_num)

theorem npPercentile_predsAt (mo : List ℚ → ℚ) (scale : List ℚ → List ℚ)
    (lastM : ℕ) (w0 : List ℚ) (i : ℕ) (q : ℚ) (hq0 : 0 ≤ q) (hq1 : q ≤ 100) :
    npPercentile (predsAt mo scale lastM w0 i) q = sampleVal mo scale lastM w0 i := by
  rw [predsAt_eq_replicate]
  refine npPercentile_const _ _ _ (by simp) (fun x hx => ?_) hq0 hq1
  exact (List.eq_of_mem_replicate hx)

theorem intervals_of_gp (mo : List ℚ → ℚ) (scale : List ℚ → List ℚ)
    (monthly : List (ℕ × ℚ)) (an : AnalysisDicts) :
    (generatePredictions mo scale monthly an).intervals
      = intervalsAt mo scale (lastMonthOf monthly) (initWindow monthly) := rfl

theorem intervalEntry_gp (mo : List ℚ → ℚ) (scale : List ℚ → List ℚ)
    (monthly : List (ℕ × ℚ)) (an : AnalysisDicts) (l : ℚ) (i : ℕ)
    (hl : l ∈ confidenceLevels) (hi : i < forecastPeriods) :
    intervalEntry (generatePredictions mo scale monthly an) l i
      = { period := lastMonthOf monthly + i + 1
          lower := npPercentile
            (predsAt mo scale (lastMonthOf monthly) (initWindow monthly) i) ((100 - l * 100) / 2)
          upper := npPercentile
            (predsAt mo scale (lastMonthOf monthly) (initWindow monthly) i) (50 + l * 100 / 2) } := by
  rw [intervalEntry, intervals_of_gp]
  simp only [confidenceLevels, List.mem_cons, List.not_mem_nil, or_false] at hl
  rcases hl with h | h | h <;> subst h <;>
    · norm_num [intervalsAt, confidenceLevels, lookupLv]
      simp [List.getElem?_range hi]

/-- The claim C10 property: for every forecast period, the 100 ensemble
samples are all equal (each is the same deterministic prediction on the
same scaled feature vector), so before seasonal adjustment every
confidence interval at every configured level is degenerate: lower and
upper both equal the point estimate and every uncertainty range is 0. -/
theorem c10_degenerate_intervals (mo : List ℚ → ℚ) (scale : List ℚ → List ℚ)
    (monthly : List (ℕ × ℚ)) (an : AnalysisDicts) (l : ℚ) (i : ℕ)
    (hl : l ∈ confidenceLevels) (hi : i < forecastPeriods) :
    (∀ x ∈ predsAt mo scale (lastMonthOf monthly) (initWindow monthly) i,
       x = sampleVal mo scale (lastMonthOf monthly) (initWindow monthly) i)
    ∧ (intervalEntry (generatePredictions mo scale monthly an) l i).lower
        = predAt mo scale (lastMonthOf monthly) (initWindow monthly) i
    ∧ (intervalEntry (generatePredictions mo scale monthly an) l i).upper
        = predAt mo scale (lastMonthOf monthly) (initWindow monthly) i
    ∧ (intervalEntry (generatePredictions mo scale monthly an) l i).upper
        - (intervalEntry (generatePredictions mo scale monthly an) l i).lower = 0 := by
  have hq0 : (0:ℚ) ≤ (100 - l * 100) / 2 ∧ (100 - l * 100) / 2 ≤ 100
      ∧ (0:ℚ) ≤ 50 + l * 100 / 2 ∧ 50 + l * 100 / 2 ≤ 100 := by
    simp only [confidenceLevels, List.mem_cons, List.not_mem_nil, or_false] at hl
    rcases hl with h | h | h <;> subst h <;> norm_num
  rw [intervalEntry_gp mo scale monthly an l i hl hi]
  refine ⟨fun x hx => List.eq_of_mem_replicate hx, ?_, ?_, ?_⟩ <;>
    simp [npPercentile_predsAt _ _ _ _ _ _ hq0.1 hq0.2.1,
      npPercentile_predsAt _ _ _ _ _ _ hq0.2.2.1 hq0.2.2.2,
      predAt_eq_sampleVal]

theorem c10_witness :
    (intervalEntry (generatePredictions mo100 idScale m6 anN) (19/20) 0).lower
      = predAt mo100 idScale (lastMonthOf m6) (initWindow m6) 0
    ∧ (intervalEntry (generatePredictions mo100 idScale m6 anN) (19/20) 0).upper
        - (intervalEntry (generatePredictions mo100 idScale m6 anN) (19/20) 0).lower = 0 := by
  have h := c10_degenerate_intervals mo100 idScale m6 anN (19/20) 0
    (by norm_num [confidenceLevels]) (by norm_num [forecastPeriods])
  exact ⟨h.2.1, h.2.2.2⟩

theorem levelq_bounds (l : ℚ) (hl : l ∈ confidenceLevels) :
    (0:ℚ) ≤ (100 - l * 100) / 2 ∧ (100 - l * 100) / 2 ≤ 100
    ∧ (0:ℚ) ≤ 50 + l * 100 / 2 ∧ 50 + l * 100 / 2 ≤ 100 := by
  simp only [confidenceLevels, List.mem_cons, List.not_mem_nil, or_false] at hl
  rcases hl with h | h | h <;> subst h <;> norm_num

theorem forecasts_of_gp (mo : List ℚ → ℚ) (scale : List ℚ → List ℚ)
    (monthly : List (ℕ × ℚ)) (an : AnalysisDicts) :
    (generatePredictions mo scale monthly an).forecasts
      = (List.range forecastPeriods).map (fun i =>
          (lastMonthOf monthly + i + 1,
           applyAdjust an (lastMonthOf monthly + i + 1)
             (predAt mo scale (lastMonthOf monthly) (initWindow monthly) i))) := by
  simp only [generatePredictions, forecastsU, List.map_map]
  rfl

theorem forecastVal_gp (mo : List ℚ → ℚ) (scale : List ℚ → List ℚ)
    (monthly : List (ℕ × ℚ)) (an : AnalysisDicts) (i : ℕ) (hi : i < forecastPeriods) :
    forecastVal (generatePredictions mo scale monthly an) i
      = applyAdjust an (lastMonthOf monthly + i + 1)
          (predAt mo scale (lastMonthOf monthly) (initWindow monthly) i) := by
  rw [forecastVal, forecasts_of_gp]
  simp [List.getElem?_range hi]

/-- The claim C1 property, amended to what the code does: at every
period and configured level the interval is degenerate at the
unadjusted point estimate (lower = upper = estimate), so the bands of
any two levels coincide and the band-nesting property holds; the full
invariant lower <= point_estimate <= upper holds for the stored,
seasonally adjusted point estimate exactly when the adjustment leaves
the estimate unchanged. -/
theorem c1_band_invariant (mo : List ℚ → ℚ) (scale : List ℚ → List ℚ)
    (monthly : List (ℕ × ℚ)) (an : AnalysisDicts) (l1 l2 : ℚ) (i : ℕ)
    (h1 : l1 ∈ confidenceLevels) (h2 : l2 ∈ confidenceLevels) (hi : i < forecastPeriods) :
    (intervalEntry (generatePredictions mo scale monthly an) l1 i).lower
        = predAt mo scale (lastMonthOf monthly) (initWindow monthly) i
    ∧ (intervalEntry (generatePredictions mo scale monthly an) l1 i).upper
        = predAt mo scale (lastMonthOf monthly) (initWindow monthly) i
    ∧ (intervalEntry (generatePredictions mo scale monthly an) l1 i).lower
        = (intervalEntry (generatePredictions mo scale monthly an) l2 i).lower
    ∧ (intervalEntry (generatePredictions mo scale monthly an) l1 i).upper
        = (intervalEntry (generatePredictions mo scale monthly an) l2 i).upper
    ∧ (((intervalEntry (generatePredictions mo scale monthly an) l1 i).lower
          ≤ forecastVal (generatePredictions mo scale monthly an) i
        ∧ forecastVal (generatePredictions mo scale monthly an) i
          ≤ (intervalEntry (generatePredictions mo scale monthly an) l1 i).upper)
        ↔ forecastVal (generatePredictions mo scale monthly an) i
            = predAt mo scale (lastMonthOf monthly) (initWindow monthly) i) := by
  have b1 := levelq_bounds l1 h1
  have b2 := levelq_bounds l2 h2
  have e1 := intervalEntry_gp mo scale monthly an l1 i h1 hi
  have e2 := intervalEntry_gp mo scale monthly an l2 i h2 hi
  have lo1 : (intervalEntry (generatePredictions mo scale monthly an) l1 i).lower
      = predAt mo scale (lastMonthOf monthly) (initWindow monthly) i := by
    rw [e1, predAt_eq_sampleVal]
    exact npPercentile_predsAt _ _ _ _ _ _ b1.1 b1.2.1
  have up1 : (intervalEntry (generatePredictions mo scale monthly an) l1 i).upper
      = predAt mo scale (lastMonthOf monthly) (initWindow monthly) i := by
    rw [e1, predAt_eq_sampleVal]
    exact npPercentile_predsAt _ _ _ _ _ _ b1.2.2.1 b1.2.2.2
  have lo2 : (intervalEntry (generatePredictions mo scale monthly an) l2 i).lower
      = predAt mo scale (lastMonthOf monthly) (initWindow monthly) i := by
    rw [e2, predAt_eq_sampleVal]
    exact npPercentile_predsAt _ _ _ _ _ _ b2.1 b2.2.1
  have up2 : (intervalEntry (generatePredictions mo scale monthly an) l2 i).upper
      = predAt mo scale (lastMonthOf monthly) (initWindow monthly) i := by
    rw [e2, predAt_eq_sampleVal]
    exact npPercentile_predsAt _ _ _ _ _ _ b2.2.2.1 b2.2.2.2
  refine ⟨lo1, up1, lo2 ▸ lo1, up2 ▸ up1, ?_⟩
  rw [lo1, up1]
  constructor
  · exact fun hb => le_antisymm hb.2 hb.1
  · exact fun he => ⟨he.ge, he.le⟩

theorem c1_witness :
    (intervalEntry (generatePredictions mo100 idScale m6 anN) (19/20) 0).lower
      = predAt mo100 idScale (lastMonthOf m6) (initWindow m6) 0
    ∧ (intervalEntry (generatePredictions mo100 idScale m6 anN) (19/20) 0).upper
      = (intervalEntry (generatePredictions mo100 idScale m6 anN) (1/2) 0).upper := by
  have h := c1_band_invariant mo100 idScale m6 anN (19/20) (1/2) 0
    (by norm_num [confidenceLevels]) (by norm_num [confidenceLevels])
    (by norm_num [forecastPeriods])
  exact ⟨h.1, h.2.2.2.1⟩

/-- The claim C1 counterexample: running the pipeline on six months of
constant cost 100 with a (caller-supplied) analysis whose monthly
seasonal pattern has every integer month with index 1, the first 0.95
interval is [100, 100] while the stored, seasonally adjusted point
estimate is 200, so lower <= point_estimate <= upper fails after
seasonal adjustment. -/
theorem c1_counterexample :
    (generateForecastCore cxStack 42 cxData an1).map (fun r =>
        ((intervalEntry r (19/20) 0).lower, forecastVal r 0, (intervalEntry r (19/20) 0).upper))
      = some (100, 200, 100)
    ∧ ¬ ((100:ℚ) ≤ 200 ∧ (200:ℚ) ≤ 100) := by
  have hfp : (0:ℕ) < forecastPeriods := by norm_num [forecastPeriods]
  have hl : (19/20 : ℚ) ∈ confidenceLevels := by norm_num [confidenceLevels]
  have hcore : generateForecastCore cxStack 42 cxData an1
      = some (generatePredictions mo100 idScale (prepareData cxData) an1) := rfl
  constructor
  · rw [hcore]
    simp only [Option.map_some']
    have e := intervalEntry_gp mo100 idScale (prepareData cxData) an1 (19/20) 0 hl hfp
    have elo : (intervalEntry (generatePredictions mo100 idScale (prepareData cxData) an1)
        (19/20) 0).lower
        = sampleVal mo100 idScale (lastMonthOf (prepareData cxData)) (initWindow (prepareData cxData)) 0 := by
      rw [e]
      exact npPercentile_predsAt _ _ _ _ _ _ (by norm_num) (by norm_num)
    have eup : (intervalEntry (generatePredictions mo100 idScale (prepareData cxData) an1)
        (19/20) 0).upper
        = sampleVal mo100 idScale (lastMonthOf (prepareData cxData)) (initWindow (prepareData cxData)) 0 := by
      rw [e]
      exact npPercentile_predsAt _ _ _ _ _ _ (by norm_num) (by norm_num)
    have efv := forecastVal_gp mo100 idScale (prepareData cxData) an1 0 hfp
    have hsv : sampleVal mo100 idScale (lastMonthOf (prepareData cxData))
        (initWindow (prepareData cxData)) 0 = 100 := rfl
    have hlm : lastMonthOf (prepareData cxData) = 5 := by decide
    rw [elo, eup, efv, predAt_eq_sampleVal, hsv, hlm]
    norm_num [applyAdjust, an1, stepAdj, lookupP, allMonths1, calMonth, calQuarter]
  · norm_num

theorem stepAdj_eq_mul_facOf (pat : Option (List (PKey × ℚ))) (k : PKey) (f : ℚ) :
    stepAdj pat k f = f * facOf pat k := by
  cases pat with
  | none => simp [stepAdj, facOf]
  | some d =>
    cases h : lookupP d k with
    | none => simp [stepAdj, facOf, h]
    | some v => simp [stepAdj, facOf, h]

theorem lookupP_int_none_of_string_keys (d : List (PKey × ℚ))
    (hk : ∀ kv ∈ d, kv.1 ∈ analyzerSeasonKeys) (m : ℕ) :
    lookupP d (PKey.i m) = none := by
  induction d with
  | nil => rfl
  | cons kv rest ih =>
    have h1 := hk kv (List.mem_cons_self kv rest)
    have hne : kv.1 ≠ PKey.i m := by
      simp only [analyzerSeasonKeys, List.mem_cons, List.not_mem_nil, or_false] at h1
      rcases h1 with h | h | h | h | h | h <;> simp [h]
    rw [lookupP]
    rw [if_neg (by exact fun hc => hne (by rw [hc]))]
    exact ih (fun kv2 h2 => hk kv2 (List.mem_cons_of_mem kv h2))

/-- The claim C3 property, amended to what the code does: the seasonal
adjustment multiplies only the point estimate, composing the monthly
factor then the quarterly factor, each applied only when the pattern
dict contains the integer calendar month or quarter as a key; the
confidence intervals are not rescaled (they do not depend on the
analysis at all); and the dicts the analyzer produces for its monthly
and quarterly patterns carry only string statistic keys, so a
pipeline-produced analysis never changes any forecast. -/
theorem c3_seasonal_adjustment :
    (∀ (an : AnalysisDicts) (m : ℕ) (f : ℚ),
        applyAdjust an m f = f * monthlyFacOf an m * quarterlyFacOf an m)
    ∧ (∀ (d : List (PKey × ℚ)), (∀ kv ∈ d, kv.1 ∈ analyzerSeasonKeys) →
        ∀ (m : ℕ) (f : ℚ), stepAdj (some d) (PKey.i m) f = f)
    ∧ (∀ (mo : List ℚ → ℚ) (scale : List ℚ → List ℚ) (monthly : List (ℕ × ℚ))
        (an1v an2v : AnalysisDicts),
        (generatePredictions mo scale monthly an1v).intervals
          = (generatePredictions mo scale monthly an2v).intervals) := by
  refine ⟨fun an m f => ?_, fun d hk m f => ?_, fun mo scale monthly an1v an2v => rfl⟩
  · rw [applyAdjust, monthlyFacOf, quarterlyFacOf]
    by_cases h : an.hasSeasonality
    · simp only [h, if_true]
      rw [stepAdj_eq_mul_facOf, stepAdj_eq_mul_facOf]
    · simp [h]
  · rw [stepAdj, lookupP_int_none_of_string_keys d hk m]

theorem c3_witness :
    stepAdj (some [(PKey.s ("highest_cost_month"), 3), (PKey.s ("lowest_cost_month"), 1),
        (PKey.s ("seasonal_variation"), 1/2)]) (PKey.i 7) 5 = 5
    ∧ applyAdjust an1 6 100 = 100 * monthlyFacOf an1 6 * quarterlyFacOf an1 6 := by
  constructor
  · exact c3_seasonal_adjustment.2.1 _ (by decide) 7 5
  · exact c3_seasonal_adjustment.1 an1 6 100

/-- The claim C3 counterexample: on the concrete run of
c1_counterexample, the stored point estimate is multiplied to 200 by
the monthly factor 1 + 1, but the 0.95 upper bound stays 100 instead of
being rescaled proportionally to 200. -/
theorem c3_counterexample :
    (generateForecastCore cxStack 42 cxData an1).map (fun r =>
        (forecastVal r 0, (intervalEntry r (19/20) 0).upper))
      = some (200, 100)
    ∧ ¬ ((100:ℚ) = (1 + 1) * 100) := by
  have hfp : (0:ℕ) < forecastPeriods := by norm_num [forecastPeriods]
  have hl : (19/20 : ℚ) ∈ confidenceLevels := by norm_num [confidenceLevels]
  have hcore : generateForecastCore cxStack 42 cxData an1
      = some (generatePredictions mo100 idScale (prepareData cxData) an1) := rfl
  constructor
  · rw [hcore]
    simp only [Option.map_some']
    have e := intervalEntry_gp mo100 idScale (prepareData cxData) an1 (19/20) 0 hl hfp
    have eup : (intervalEntry (generatePredictions mo100 idScale (prepareData cxData) an1)
        (19/20) 0).upper
        = sampleVal mo100 idScale (lastMonthOf (prepareData cxData)) (initWindow (prepareData cxData)) 0 := by
      rw [e]
      exact npPercentile_predsAt _ _ _ _ _ _ (by norm_num) (by norm_num)
    have efv := forecastVal_gp mo100 idScale (prepareData cxData) an1 0 hfp
    have hsv : sampleVal mo100 idScale (lastMonthOf (prepareData cxData))
        (initWindow (prepareData cxData)) 0 = 100 := rfl
    have hlm : lastMonthOf (prepareData cxData) = 5 := by decide
    rw [eup, efv, predAt_eq_sampleVal, hsv, hlm]
    norm_num [applyAdjust, an1, stepAdj, lookupP, allMonths1, calMonth, calQuarter]
  · norm_num

theorem foldl_min_le (xs : List ℕ) (x : ℕ) : xs.foldl min x ≤ x := by
  induction xs generalizing x with
  | nil => exact le_refl x
  | cons a l ih =>
    calc (a :: l).foldl min x = l.foldl min (min x a) := rfl
    _ ≤ min x a := ih (min x a)
    _ ≤ x := min_le_left x a

theorem le_foldl_max (xs : List ℕ) (x : ℕ) : x ≤ xs.foldl max x := by
  induction xs generalizing x with
  | nil => exact le_refl x
  | cons a l ih =>
    calc x ≤ max x a := le_max_left x a
    _ ≤ l.foldl max (max x a) := ih (max x a)
    _ = (a :: l).foldl max x := rfl

theorem minMonth_le_maxMonth (data : List Obs) : minMonth data ≤ maxMonth data := by
  rw [minMonth, maxMonth]
  cases hdm : data.map Obs.month with
  | nil => exact le_refl 0
  | cons x xs => exact le_trans (foldl_min_le xs x) (le_foldl_max xs x)

theorem prepareData_length (data : List Obs) :
    (prepareData data).length = monthSpan data := by
  cases data with
  | nil => rfl
  | cons o l => simp [prepareData, monthSpan]

theorem lastMonthOf_prepareData (data : List Obs) (h : data ≠ []) :
    lastMonthOf (prepareData data) = maxMonth data := by
  cases data with
  | nil => exact absurd rfl h
  | cons o l =>
    rw [lastMonthOf]
    have hspan : (prepareData (o :: l)).length = maxMonth (o :: l) - minMonth (o :: l) + 1 := by
      simp [prepareData]
    rw [hspan]
    have hmm := minMonth_le_maxMonth (o :: l)
    have hfst : (prepareData (o :: l)).map Prod.fst
        = (List.range (maxMonth (o :: l) - minMonth (o :: l) + 1)).map
            (fun k => minMonth (o :: l) + k) := by
      simp only [prepareData, List.map_map]
      rfl
    rw [hfst, getD_map_range _ 0 _ _ (by omega)]
    omega

/-- The claim C5 property: every successfully generated result carries
exactly forecastPeriods (12) forecasts, whose periods are the 12
consecutive calendar months immediately after the last historical
month, hence strictly increasing and contiguous. -/
theorem c5_horizon_periods (F : MLStack) (an : AnalysisDicts) (data : List Obs)
    (r : ForecastResultQ)
    (h : generateForecastCore F mkCostForecaster.seed data an = some r) :
    r.forecasts.length = forecastPeriods
    ∧ (∀ i, i < forecastPeriods → (r.forecasts.getD i (0, 0)).1 = maxMonth data + i + 1)
    ∧ (∀ i, i + 1 < forecastPeriods →
        (r.forecasts.getD i (0, 0)).1 < (r.forecasts.getD (i + 1) (0, 0)).1) := by
  simp only [generateForecastCore] at h
  split_ifs at h with h1 h2 h3
  have hdne : data ≠ [] := by
    intro hd
    subst hd
    exact h1 rfl
  injection h with h
  subst h
  rw [forecasts_of_gp]
  refine ⟨by simp, fun i hi => ?_, fun i hi => ?_⟩
  · rw [getD_map_range _ (0, 0) _ _ hi]
    rw [lastMonthOf_prepareData data hdne]
  · rw [getD_map_range _ (0, 0) _ _ (by omega), getD_map_range _ (0, 0) _ _ hi]
    omega

theorem c5_witness :
    ((generateForecastCore cxStack 42 data5 anN).getD dfltResult).forecasts.length
      = forecastPeriods
    ∧ (((generateForecastCore cxStack 42 data5 anN).getD dfltResult).forecasts.getD 0 (0, 0)).1
      = 5 := by
  have hcore : generateForecastCore cxStack 42 data5 anN
      = some ((generateForecastCore cxStack 42 data5 anN).getD dfltResult) := rfl
  have h := c5_horizon_periods cxStack anN data5 _ hcore
  refine ⟨h.1, ?_⟩
  have h2 := h.2.1 0 (by norm_num [forecastPeriods])
  have hmx : maxMonth data5 = 4 := by decide
  omega

/-- The claim C2 property, amended to what the code does: no
InsufficientHistoryError type exists anywhere in the source and the
declared minimum of 6 historical months is never enforced.  The
pipeline signals failure by returning None, and it does so exactly when
the monthly series spans fewer than 5 calendar months: below 4 months
no training example can be formed, and at exactly 4 the single example
makes the 0.2 test split leave an empty training set, so the model
stays unfitted and prediction fails.  In particular both 5 and 6 months
of data succeed. -/
theorem c2_history_threshold (F : MLStack) (an : AnalysisDicts) (data : List Obs) :
    (generateForecastCore F mkCostForecaster.seed data an).isSome = true
      ↔ 5 ≤ monthSpan data := by
  have hlen := prepareData_length data
  have hX : (createFeaturesX (prepareData data)).length = (prepareData data).length - 3 := by
    simp [createFeaturesX]
  simp only [generateForecastCore]
  split_ifs with h1 h2 h3
  · rw [List.isEmpty_iff] at h1
    have hz : monthSpan data = 0 := by
      rw [← hlen, h1]
      rfl
    simp [hz]
  · rw [List.isEmpty_iff] at h2
    have hz : (prepareData data).length - 3 = 0 := by
      rw [← hX, h2]
      rfl
    simp only [Option.isSome_none, Bool.false_eq_true, false_iff]
    omega
  · simp only [List.length_map] at h3
    rw [hX] at h3
    simp only [Option.isSome_none, Bool.false_eq_true, false_iff]
    omega
  · simp only [Option.isSome_some, true_iff]
    simp only [List.length_map] at h3
    rw [hX] at h3
    have hx2 : (createFeaturesX (prepareData data)).length ≠ 0 := by
      intro hc
      exact h2 (List.isEmpty_iff.mpr (List.length_eq_zero.mp hc))
    rw [hX] at hx2
    omega

/-- The claim C2 counterexample: a dataset spanning exactly 5 months
(and even one with only 2 distinct observed months, 8 months apart)
makes the pipeline succeed, where the claim demands an
InsufficientHistoryError below 6 distinct observed months. -/
theorem c2_counterexample :
    (generateForecastCore cxStack 42 data5 anN).isSome = true
    ∧ (generateForecastCore cxStack 42 dataSpread anN).isSome = true
    ∧ monthSpan data5 = 5
    ∧ (data5.map Obs.month).dedup.length = 5
    ∧ (dataSpread.map Obs.month).dedup.length = 2 := by
  refine ⟨rfl, rfl, by decide, by decide, by decide⟩

theorem rhe_le (q : ℚ) : ((rhe q : ℤ) : ℚ) ≤ q + 1/2 := by
  have hf : ((⌊q⌋ : ℤ) : ℚ) ≤ q := Int.floor_le q
  simp only [rhe]
  split_ifs with h1 h2 h3
  · linarith
  · push_cast
    linarith
  · linarith
  · push_cast
    have hr : (1:ℚ)/2 ≤ q - ((⌊q⌋ : ℤ) : ℚ) := not_lt.mp h1
    linarith

theorem rhe_nonneg (q : ℚ) (h : 0 ≤ q) : 0 ≤ rhe q := by
  have hf : 0 ≤ ⌊q⌋ := Int.floor_nonneg.mpr h
  simp only [rhe]
  split_ifs <;> omega

theorem rhe_zero (q : ℚ) (h0 : 0 ≤ q) (h1 : q ≤ 1/2) : rhe q = 0 := by
  have hfl : ⌊q⌋ = 0 := Int.floor_eq_zero_iff.mpr ⟨h0, by linarith⟩
  simp only [rhe, hfl]
  split_ifs with a b c
  · rfl
  · exfalso
    push_cast at b
    linarith
  · rfl
  · exfalso
    exact c rfl

theorem rhe_le_hundred (q : ℚ) (h : q ≤ 201/2) : rhe q ≤ 100 := by
  have hfub : ⌊q⌋ ≤ 100 := by
    have h2 : ⌊q⌋ ≤ ⌊(201:ℚ)/2⌋ := Int.floor_le_floor h
    have h3 : ⌊(201:ℚ)/2⌋ = 100 := by
      rw [Int.floor_eq_iff]
      norm_num
    omega
  have hflq : ((⌊q⌋ : ℤ) : ℚ) ≤ q := Int.floor_le q
  simp only [rhe]
  split_ifs with h1 h2 h3
  · exact hfub
  · by_contra hc
    have he : ⌊q⌋ = 100 := by omega
    rw [he] at h2
    push_cast at h2
    linarith
  · exact hfub
  · by_contra hc
    have he : ⌊q⌋ = 100 := by omega
    rw [he] at h3
    omega

theorem rhe_intCast (n : ℤ) : rhe ((n : ℤ) : ℚ) = n := by
  simp [rhe, Int.floor_intCast]

theorem round2_nonneg (q : ℚ) (h : 0 ≤ q) : 0 ≤ round2 q := by
  rw [round2]
  have := rhe_nonneg (100 * q) (by linarith)
  positivity

theorem round2_le (q : ℚ) : round2 q ≤ q + 1/200 := by
  rw [round2]
  have h := rhe_le (100 * q)
  rw [div_le_iff₀ (by norm_num : (0:ℚ) < 100)]
  linarith

theorem round2_zero_of_small (s : ℚ) (h0 : 0 ≤ s) (h1 : s ≤ 1/200) : round2 s = 0 := by
  rw [round2, rhe_zero (100 * s) (by linarith) (by linarith)]
  norm_num

theorem round2_sq_le (s : ℚ) (h : 0 ≤ s) : (round2 s) ^ 2 ≤ s ^ 2 + (3/200) * s := by
  by_cases hs : s ≤ 1/200
  · rw [round2_zero_of_small s h hs]
    nlinarith
  · push_neg at hs
    have h1 : round2 s ≤ s + 1/200 := round2_le s
    have h2 : 0 ≤ round2 s := round2_nonneg s h
    nlinarith

theorem sum_sq_round2_le (l : List ℚ) (h : ∀ x ∈ l, 0 ≤ x) :
    ((l.map (fun s => (round2 s / 100) ^ 2)).sum)
      ≤ ((l.sum) ^ 2 + (3/200) * l.sum) / 10000 := by
  induction l with
  | nil => simp
  | cons a tl ih =>
    have ha : 0 ≤ a := h a (List.mem_cons_self a tl)
    have htl : ∀ x ∈ tl, 0 ≤ x := fun x hx => h x (List.mem_cons_of_mem a hx)
    have hstl : 0 ≤ tl.sum := List.sum_nonneg htl
    have hpt := round2_sq_le a ha
    have hitl := ih htl
    simp only [List.map_cons, List.sum_cons]
    have hsq : (round2 a / 100) ^ 2 = (round2 a) ^ 2 / 10000 := by ring
    rw [hsq]
    nlinarith [hpt, hitl, mul_nonneg ha hstl]

theorem sum_map_share (l : List ℚ) (T : ℚ) :
    (l.map (fun c => c / T * 100)).sum = l.sum / T * 100 := by
  induction l with
  | nil => simp
  | cons a tl ih =>
    simp only [List.map_cons, List.sum_cons, ih]
    ring

theorem dedup_all_eq {l : List String} {t : String} (hne : l ≠ [])
    (hall : ∀ x ∈ l, x = t) : l.dedup = [t] := by
  induction l with
  | nil => exact absurd rfl hne
  | cons a tl ih =>
    have hat : a = t := hall a (List.mem_cons_self a tl)
    cases tl with
    | nil =>
      rw [List.dedup_cons_of_not_mem (by simp)]
      rw [List.dedup_nil, hat]
    | cons b m =>
      have hbt : b = t := hall b (by simp)
      have hmem : a ∈ b :: m := by
        rw [hat, hbt]
        exact List.mem_cons_self t m
      rw [List.dedup_cons_of_mem hmem]
      exact ih (by simp) (fun x hx => hall x (List.mem_cons_of_mem a hx))

/-- The claim C6 property, amended to what the code does: the
concentration index is the sum over all resource types of the squared
fractional shares computed from the percentages rounded to two
decimals, with the sum itself rounded to two decimals; for nonnegative
costs with positive total it lies in [0, 1], and it equals exactly 1
when all cost belongs to one resource type. -/
theorem c6_concentration_index (data : List Obs)
    (hc : ∀ o ∈ data, 0 ≤ o.cost) (hT : 0 < (resourceTotals data).sum) :
    (∃ h, costConcentration data = some h ∧ 0 ≤ h ∧ h ≤ 1)
    ∧ (∀ t, data ≠ [] → (∀ o ∈ data, o.rtype = t) → costConcentration data = some 1) := by
  have hTne : (resourceTotals data).sum ≠ 0 := ne_of_gt hT
  have hps : resourcePercentages data
      = some ((resourceTotals data).map (fun c => round2 (c / (resourceTotals data).sum * 100))) := by
    rw [resourcePercentages, if_neg hTne]
  have hcc : costConcentration data
      = some (round2 ((((resourceTotals data).map
          (fun c => round2 (c / (resourceTotals data).sum * 100))).map
            (fun p => (p / 100) ^ 2)).sum)) := by
    rw [costConcentration, hps]
  have htot : ∀ c ∈ resourceTotals data, 0 ≤ c := by
    intro c hcm
    rw [resourceTotals] at hcm
    obtain ⟨t, _ht, rfl⟩ := List.mem_map.mp hcm
    refine List.sum_nonneg (fun x hx => ?_)
    obtain ⟨o, ho, rfl⟩ := List.mem_map.mp hx
    exact hc o (List.mem_of_mem_filter ho)
  have hSrw : (((resourceTotals data).map
        (fun c => round2 (c / (resourceTotals data).sum * 100))).map
          (fun p => (p / 100) ^ 2)).sum
      = (((resourceTotals data).map (fun c => c / (resourceTotals data).sum * 100)).map
          (fun s => (round2 s / 100) ^ 2)).sum := by
    rw [List.map_map, List.map_map]
    rfl
  constructor
  · have hsh : ∀ x ∈ (resourceTotals data).map (fun c => c / (resourceTotals data).sum * 100),
        0 ≤ x := by
      intro x hx
      obtain ⟨c, hcm, rfl⟩ := List.mem_map.mp hx
      have := htot c hcm
      positivity
    have hshsum : ((resourceTotals data).map (fun c => c / (resourceTotals data).sum * 100)).sum
        = 100 := by
      rw [sum_map_share, div_self hTne, one_mul]
    have hbound := sum_sq_round2_le _ hsh
    rw [hshsum] at hbound
    have hS0 : 0 ≤ (((resourceTotals data).map (fun c => c / (resourceTotals data).sum * 100)).map
        (fun s => (round2 s / 100) ^ 2)).sum := by
      refine List.sum_nonneg (fun x hx => ?_)
      obtain ⟨s, _hs, rfl⟩ := List.mem_map.mp hx
      positivity
    refine ⟨_, hcc, ?_, ?_⟩
    · rw [hSrw]
      exact round2_nonneg _ hS0
    · rw [hSrw, round2]
      rw [div_le_one (by norm_num : (0:ℚ) < 100)]
      have hrh := rhe_le_hundred (100 * (((resourceTotals data).map
          (fun c => c / (resourceTotals data).sum * 100)).map
            (fun s => (round2 s / 100) ^ 2)).sum) (by linarith)
      exact_mod_cast hrh
  · intro t hne hall
    have hmne : data.map Obs.rtype ≠ [] := by
      cases data with
      | nil => exact absurd rfl hne
      | cons o l => simp
    have hrt : resourceTypes data = [t] := by
      refine dedup_all_eq hmne (fun x hx => ?_)
      obtain ⟨o, ho, rfl⟩ := List.mem_map.mp hx
      exact hall o ho
    have hrtot : resourceTotals data = [typeTotal data t] := by
      rw [resourceTotals, hrt]
      rfl
    have hsum1 : (resourceTotals data).sum = typeTotal data t := by
      rw [hrtot]
      simp
    have htne : typeTotal data t ≠ 0 := by
      rw [← hsum1]
      exact hTne
    have hr100 : round2 (100 : ℚ) = 100 := by
      rw [round2]
      rw [show (100 : ℚ) * 100 = ((10000 : ℤ) : ℚ) by norm_num]
      rw [rhe_intCast]
      norm_num
    have hr1 : round2 (1 : ℚ) = 1 := by
      rw [round2]
      rw [show (100 : ℚ) * 1 = ((100 : ℤ) : ℚ) by norm_num]
      rw [rhe_intCast]
      norm_num
    rw [hcc, hsum1, hrtot]
    simp only [List.map_cons, List.map_nil, List.sum_cons, List.sum_nil, add_zero]
    rw [div_self htne, one_mul, hr100]
    rw [show ((100 : ℚ) / 100) ^ 2 = 1 by norm_num]
    rw [hr1]

theorem c6_witness : costConcentration obsV = some 1 := by
  have hc : ∀ o ∈ obsV, 0 ≤ o.cost := by
    intro o ho
    rcases List.mem_singleton.mp ho with rfl
    norm_num
  have htotv : resourceTotals obsV = [5] := by
    simp [resourceTotals, resourceTypes, typeTotal, obsV]
  have hT : 0 < (resourceTotals obsV).sum := by
    rw [htotv]
    norm_num
  refine (c6_concentration_index obsV hc hT).2 ("VM") (by simp [obsV]) ?_
  intro o ho
  rcases List.mem_singleton.mp ho with rfl
  rfl

/-- The claim C6 counterexample: three equal-cost resource types give
stored percentages 33.33 each and a concentration index of 0.33, which
differs both from the sum of squared exact fractional shares (1/3) and
from the unrounded sum of squared stored shares (0.33326667), so the
code value does not equal the claimed sum of squared shares. -/
theorem c6_counterexample :
    costConcentration obs3 = some (33/100)
    ∧ ((33:ℚ)/100 ≠ (1/3) ^ 2 + ((1/3) ^ 2 + ((1/3) ^ 2 + 0)))
    ∧ ((33:ℚ)/100
        ≠ (3333/10000:ℚ) ^ 2 + ((3333/10000:ℚ) ^ 2 + ((3333/10000:ℚ) ^ 2 + 0))) := by
  have h0 : resourceTypes obs3 = [("A"), ("B"), ("C")] := by rfl
  have h1 : resourceTotals obs3 = [1, 1, 1] := by
    rw [resourceTotals, h0]
    simp [typeTotal, obs3]
  have hsum : (resourceTotals obs3).sum = 3 := by
    rw [h1]
    norm_num
  have hs0 : ¬ ((resourceTotals obs3).sum = 0) := by
    rw [hsum]
    norm_num
  have hshare : round2 ((1:ℚ) / 3 * 100) = 3333/100 := by
    rw [round2]
    have hfl : ⌊(100:ℚ) * (1 / 3 * 100)⌋ = 3333 := by
      rw [Int.floor_eq_iff]
      norm_num
    simp only [rhe, hfl]
    rw [if_pos (by push_cast; norm_num)]
    norm_num
  have hps : resourcePercentages obs3 = some [3333/100, 3333/100, 3333/100] := by
    rw [resourcePercentages, if_neg hs0]
    simp only [hsum]
    simp only [h1, List.map_cons, List.map_nil]
    rw [hshare]
  have hval : round2 ((3333/10000:ℚ) ^ 2 + ((3333/10000:ℚ) ^ 2 + ((3333/10000:ℚ) ^ 2 + 0)))
      = 33/100 := by
    rw [round2]
    have hfl : ⌊(100:ℚ) * ((3333/10000:ℚ) ^ 2 + ((3333/10000:ℚ) ^ 2 + ((3333/10000:ℚ) ^ 2 + 0)))⌋
        = 33 := by
      rw [Int.floor_eq_iff]
      norm_num
    simp only [rhe, hfl]
    rw [if_pos (by push_cast; norm_num)]
    norm_num
  refine ⟨?_, by norm_num, by norm_num⟩
  simp only [costConcentration, hps]
  simp only [List.map_cons, List.map_nil, List.sum_cons, List.sum_nil]
  rw [show ((3333:ℚ)/100/100) ^ 2 = (3333/10000:ℚ) ^ 2 by norm_num]
  rw [hval]

theorem getD_map_snd (l : List (ℕ × ℚ)) (i : ℕ) (h : i < l.length) :
    (l.map Prod.snd).getD i 0 = (l.getD i (0, 0)).2 := by
  rw [List.getD_eq_getElem _ _ (by simpa using h), List.getD_eq_getElem _ _ h]
  simp

theorem forecastGrowth_of_gp (mo : List ℚ → ℚ) (scale : List ℚ → List ℚ)
    (monthly : List (ℕ × ℚ)) (an : AnalysisDicts) :
    (generatePredictions mo scale monthly an).forecastGrowth
      = npDivQ
          ((((generatePredictions mo scale monthly an).forecasts.map Prod.snd).getD
              (forecastPeriods - 1) 0)
            - (((generatePredictions mo scale monthly an).forecasts.map Prod.snd).getD 0 0))
          (((generatePredictions mo scale monthly an).forecasts.map Prod.snd).getD 0 0) := rfl

theorem uncertainty_of_gp (mo : List ℚ → ℚ) (scale : List ℚ → List ℚ)
    (monthly : List (ℕ × ℚ)) (an : AnalysisDicts) :
    (generatePredictions mo scale monthly an).uncertainty
      = confidenceLevels.map (fun l =>
          (l,
           { averageRange := npMean
               ((lookupLv (intervalsAt mo scale (lastMonthOf monthly) (initWindow monthly)) l).map
                 (fun e => e.upper - e.lower))
             rangeIncreasing := decide
               (((lookupLv (intervalsAt mo scale (lastMonthOf monthly) (initWindow monthly)) l).map
                   (fun e => e.upper - e.lower)).getD 0 0
                 < ((lookupLv (intervalsAt mo scale (lastMonthOf monthly) (initWindow monthly)) l).map
                     (fun e => e.upper - e.lower)).getD
                     ((lookupLv (intervalsAt mo scale (lastMonthOf monthly) (initWindow monthly)) l).length - 1) 0)
             relativeUncertainty := npDivQ
               (npMean
                 ((lookupLv (intervalsAt mo scale (lastMonthOf monthly) (initWindow monthly)) l).map
                   (fun e => e.upper - e.lower)))
               (npMean ((generatePredictions mo scale monthly an).forecasts.map Prod.snd)) })) := rfl

/-- The claim C4 property, amended to what the code does: a zero
denominator never raises and never aborts the analysis, but it does not
resolve to the documented defaults either; the affected statistic
becomes a non-finite float (modelled none): the monthly seasonal
variation whenever the mean of the per-month means is 0, the forecast
growth whenever the first adjusted forecast is 0, and the relative
uncertainty of every level whenever the mean forecast is 0. -/
theorem c4_zero_denominators :
    (∀ monthly : List (ℕ × ℚ), npMean (monthGroupMeans monthly) = 0 →
        seasonalVariation monthly = none)
    ∧ (∀ (mo : List ℚ → ℚ) (scale : List ℚ → List ℚ) (monthly : List (ℕ × ℚ))
        (an : AnalysisDicts),
        forecastVal (generatePredictions mo scale monthly an) 0 = 0 →
          (generatePredictions mo scale monthly an).forecastGrowth = none)
    ∧ (∀ (mo : List ℚ → ℚ) (scale : List ℚ → List ℚ) (monthly : List (ℕ × ℚ))
        (an : AnalysisDicts) (l : ℚ), l ∈ confidenceLevels →
        npMean ((generatePredictions mo scale monthly an).forecasts.map Prod.snd) = 0 →
          (lookupUncLv (generatePredictions mo scale monthly an).uncertainty l).relativeUncertainty
            = none) := by
  refine ⟨fun monthly h => ?_, fun mo scale monthly an h => ?_, fun mo scale monthly an l hl h => ?_⟩
  · cases hstd : sampleStdR (monthGroupMeans monthly) with
    | none => simp [seasonalVariation, hstd]
    | some s => simp [seasonalVariation, hstd, npDivR, h]
  · have hlen : 0 < (generatePredictions mo scale monthly an).forecasts.length := by
      rw [forecasts_of_gp]
      simp [forecastPeriods]
    rw [forecastGrowth_of_gp, getD_map_snd _ 0 hlen]
    rw [forecastVal] at h
    rw [h]
    simp [npDivQ]
  · rw [uncertainty_of_gp]
    simp only [confidenceLevels, List.mem_cons, List.not_mem_nil, or_false] at hl
    rcases hl with hv | hv | hv <;> subst hv <;>
      · norm_num [confidenceLevels, lookupUncLv]
        rw [h]
        simp [npDivQ]

theorem monthGroupMeans_z6m : monthGroupMeans z6m = [0, 0, 0, 0, 0, 0] := by
  have hrg : List.range 12 = [0, 1, 2, 3, 4, 5, 6, 7, 8, 9, 10, 11] := rfl
  rw [monthGroupMeans, hrg]
  norm_num [z6m, calMonth, List.filterMap_cons, List.filter]

/-- The claim C4 counterexample: on six months of all-zero cost, the
mean of the per-month means is 0 and the code's seasonal variation is
the non-finite 0.0/0.0 (modelled none), not the claimed safe default 0. -/
theorem c4_counterexample :
    seasonalVariation z6m = none ∧ seasonalVariation z6m ≠ some 0 := by
  have hmean : npMean (monthGroupMeans z6m) = 0 := by
    rw [monthGroupMeans_z6m]
    norm_num [npMean]
  have hnone : seasonalVariation z6m = none := by
    cases hstd : sampleStdR (monthGroupMeans z6m) with
    | none => simp [seasonalVariation, hstd]
    | some s => simp [seasonalVariation, hstd, npDivR, hmean]
  exact ⟨hnone, by simp [hnone]⟩

theorem c4_witness :
    seasonalVariation z6m = none
    ∧ (generatePredictions mo0 idScale m6 anN).forecastGrowth = none
    ∧ (lookupUncLv (generatePredictions mo0 idScale m6 anN).uncertainty (19/20)).relativeUncertainty
        = none := by
  have h1 : npMean (monthGroupMeans z6m) = 0 := by
    rw [monthGroupMeans_z6m]
    norm_num [npMean]
  have hz : ∀ i, applyAdjust anN (lastMonthOf m6 + i + 1)
      (predAt mo0 idScale (lastMonthOf m6) (initWindow m6) i) = 0 := by
    intro i
    rw [predAt_eq_sampleVal]
    simp [applyAdjust, anN, sampleVal, mo0]
  have hvals : ((generatePredictions mo0 idScale m6 anN).forecasts.map Prod.snd)
      = List.replicate forecastPeriods 0 := by
    rw [forecasts_of_gp, List.map_map]
    have hc : ∀ i ∈ List.range forecastPeriods,
        (Prod.snd ∘ fun i => (lastMonthOf m6 + i + 1,
          applyAdjust anN (lastMonthOf m6 + i + 1)
            (predAt mo0 idScale (lastMonthOf m6) (initWindow m6) i))) i = (fun _ => (0:ℚ)) i := by
      intro i _hi
      exact hz i
    rw [List.map_congr_left hc]
    simp [List.map_const']
  have h2 : forecastVal (generatePredictions mo0 idScale m6 anN) 0 = 0 := by
    have hlen : 0 < (generatePredictions mo0 idScale m6 anN).forecasts.length := by
      rw [forecasts_of_gp]
      simp [forecastPeriods]
    rw [forecastVal, ← getD_map_snd _ 0 hlen, hvals]
    simp [forecastPeriods]
  have h3 : npMean ((generatePredictions mo0 idScale m6 anN).forecasts.map Prod.snd) = 0 := by
    rw [hvals, npMean_replicate forecastPeriods 0 (by norm_num [forecastPeriods])]
  exact ⟨c4_zero_denominators.1 z6m h1,
    c4_zero_denominators.2.1 mo0 idScale m6 anN h2,
    c4_zero_denominators.2.2 mo0 idScale m6 anN (19/20) (by norm_num [confidenceLevels]) h3⟩
